import Mathlib

/-!
Verification of the chat-backend request pipeline: admission control
(rate limiting and concurrency slots), credential-pool rotation, the
two-stage message classifier, the character-streaming rebuffering loop,
and the credit ledger.  Each definition is a shallow embedding of the
corresponding Python function; timestamps and credit amounts (Python
floats) are modelled as rationals.
-/

namespace Vion

/-! ### backend/app/services/rate_limiter.py -/

def RATE_LIMIT_WINDOW : ℚ := 60

def MAX_REQUESTS_PER_MINUTE : Nat := 30

def MAX_CONCURRENT_REQUESTS : Nat := 5

/-- The pruning step of `check_rate_limit`: keep only the timestamps
`req_time` with `now - req_time < RATE_LIMIT_WINDOW`. -/
def pruneWindow (now : ℚ) (ts : List ℚ) : List ℚ :=
  ts.filter (fun t => now - t < RATE_LIMIT_WINDOW)

/-- Model of `check_rate_limit(user_id)` for one user: the state is the user's list of
request timestamps (`user_request_counts[user_id]`); `now` is `time.time()`.
Returns `(allowed, new state)`; the error-message string is not modelled. -/
def check_rate_limit (now : ℚ) (ts : List ℚ) : Bool × List ℚ :=
  let pruned := pruneWindow now ts
  if MAX_REQUESTS_PER_MINUTE ≤ pruned.length then
    (false, pruned)
  else
    (true, pruned ++ [now])

/-- A sequence of `check_rate_limit` calls for one user at the given times,
threading the timestamp-list state. -/
def runRequests : List ℚ → List ℚ → List Bool × List ℚ
  | [], st => ([], st)
  | t :: ts, st =>
    let r1 := check_rate_limit t st
    let r2 := runRequests ts r1.2
    (r1.1 :: r2.1, r2.2)

/-! ### Shared string utilities

Python's `needle in hay` substring test, `str.lower`, `str.upper`,
`str.strip` and `str.count` for single characters.  `pyLower`/`pyUpper`
model the Python case maps on the ASCII letters; every string the claims
evaluate contains no uppercase non-ASCII letter, where the two agree. -/

def subIn (needle : List Char) : List Char → Bool
  | [] => needle.isPrefixOf []
  | c :: rest => needle.isPrefixOf (c :: rest) || subIn needle rest

/-- Python `needle in hay` on strings: substring containment. -/
def strIn (needle hay : String) : Bool :=
  subIn needle.toList hay.toList

def pyLower (s : String) : String := String.mk (s.toList.map Char.toLower)

def pyUpper (s : String) : String := String.mk (s.toList.map Char.toUpper)

/-- Python `str.strip()`: drop whitespace from both ends. -/
def pyStrip (s : String) : String :=
  String.mk (((s.toList.dropWhile Char.isWhitespace).reverse.dropWhile
    Char.isWhitespace).reverse)

/-- Python `s.count(c)` for a single-character pattern. -/
def countChar (s : String) (c : Char) : Nat :=
  (s.toList.filter (fun x => x = c)).length

/-! ### backend/app/services/supabase_client.py

A supabase `.execute()` call either returns a response (whose `error`
attribute and `data` truthiness the callers inspect) or raises.  Credit
amounts (Python floats) are rationals. -/

structure SupaResp where
  error : Option String
  hasData : Bool

inductive OpOutcome where
  | resp (r : SupaResp)
  | raised (msg : String)

/-- Model of `deduct_credits(user_id, amount, description)`.  `current_balance` is the
value fetched by `get_user_credits`; `updateOutcome` and `txnOutcome` are the
outcomes of the `profiles` balance update and the `transactions` audit-log
insert.  Returns `(result, balance value submitted to the update call)`;
the second component is `none` when the update is never issued. -/
def deduct_credits (current_balance amount : ℚ)
    (updateOutcome txnOutcome : OpOutcome) : Bool × Option ℚ :=
  if current_balance < amount then
    (false, none)
  else
    let new_balance := current_balance - amount
    match updateOutcome with
    | .raised _ => (false, some new_balance)  -- caught by the outer except
    | .resp r =>
      if r.error.isSome then (false, some new_balance)
      else if r.hasData = false then (false, some new_balance)
      else
        -- the audit-log insert is issued inside its own try; every outcome
        -- (clean response, error response, raised exception) falls through
        match txnOutcome with
        | .resp _ => (true, some new_balance)
        | .raised _ => (true, some new_balance)

/-- Model of `add_credits(user_id, amount, ...)`: issues the balance update and the
transaction insert without inspecting either response, and returns `True`.
Returns `(result, balance value submitted to the update call)`. -/
def add_credits (current_balance amount : ℚ)
    (_updateResp _txnResp : SupaResp) : Bool × ℚ :=
  let new_balance := current_balance + amount
  (true, new_balance)

/-! ### backend/app/services/api_key_manager.py

The pool's `key_stats` dict is modelled as a total function whose relevant
domain is the `keys` list (the code keeps the dict's keys equal to the
pool's key list, and guards `mark_key_error` with `key in self.key_stats`). -/

structure KeyStats where
  usage_count : Nat
  error_count : Nat
  rate_limit_count : Nat
  last_used : ℚ
  last_error : Option String
  is_active : Bool

structure APIKeyPool where
  keys : List String
  key_stats : String → KeyStats
  current_index : Nat

/-- The stats every key starts with in `_initialize_keys`. -/
def freshStats : KeyStats :=
  { usage_count := 0, error_count := 0, rate_limit_count := 0,
    last_used := 0, last_error := none, is_active := true }

def activeKeysOf (p : APIKeyPool) : List String :=
  p.keys.filter (fun k => (p.key_stats k).is_active)

/-- The all-inactive reset inside `get_key`: reactivate every pool key. -/
def resetAllActive (p : APIKeyPool) : String → KeyStats :=
  fun k => if k ∈ p.keys then { p.key_stats k with is_active := true }
           else p.key_stats k

def bumpUsage (stats : String → KeyStats) (key : String) (now : ℚ) :
    String → KeyStats :=
  fun k =>
    if k = key then
      { stats k with usage_count := (stats k).usage_count + 1, last_used := now }
    else stats k

/-- Model of `APIKeyPool.get_key`: round-robin over the active keys; if every key is
inactive, reactivate all of them first; `now` is `time.time()`. -/
def get_key (now : ℚ) (p : APIKeyPool) : Option String × APIKeyPool :=
  if p.keys = [] then (none, p)
  else
    let stats1 := if activeKeysOf p = [] then resetAllActive p else p.key_stats
    let active_keys := if activeKeysOf p = [] then p.keys else activeKeysOf p
    if active_keys = [] then (none, { p with key_stats := stats1 })
    else
      let key := active_keys.getD (p.current_index % active_keys.length) ""
      (some key,
        { keys := p.keys, current_index := p.current_index + 1,
          key_stats := bumpUsage stats1 key now })

/-- The OpenAI client exception classes the code dispatches on.  An
`apiError` whose message contains `"429"` counts as a rate-limit error. -/
inductive PyError where
  | rateLimitError (msg : String)
  | timeoutError (msg : String)
  | apiError (msg : String)
  | other (msg : String)

def errStr : PyError → String
  | .rateLimitError m => m
  | .timeoutError m => m
  | .apiError m => m
  | .other m => m

/-- Model of `APIKeyPool.mark_key_error`: always bump the error counter; deactivate
the key (and schedule reactivation) only on a rate-limit-class error. -/
def mark_key_error (p : APIKeyPool) (key : String) (e : PyError) : APIKeyPool :=
  if key ∈ p.keys then
    let s0 := p.key_stats key
    let s1 := { s0 with error_count := s0.error_count + 1,
                        last_error := some (errStr e) }
    let s2 :=
      match e with
      | .rateLimitError _ =>
        { s1 with rate_limit_count := s1.rate_limit_count + 1, is_active := false }
      | .apiError m =>
        if strIn "429" m then
          { s1 with rate_limit_count := s1.rate_limit_count + 1, is_active := false }
        else s1
      | _ => s1
    { p with key_stats := fun k => if k = key then s2 else p.key_stats k }
  else p

/-- The body of `_reenable_key_after_delay` once the cooldown sleep ends. -/
def reenable_key (p : APIKeyPool) (key : String) : APIKeyPool :=
  if key ∈ p.keys then
    { p with key_stats := fun k =>
        if k = key then { p.key_stats k with is_active := true }
        else p.key_stats k }
  else p

/-- Concrete two-key pool for the C6 scenario: fresh pool of keys A and B. -/
def keyA : String := "sk-keyA"

def keyB : String := "sk-keyB"

def twoKeyPool : APIKeyPool :=
  { keys := [keyA, keyB], key_stats := fun _ => freshStats, current_index := 0 }

def scenarioP1 : APIKeyPool :=
  mark_key_error twoKeyPool keyA (.rateLimitError "Rate limit reached")

def scenarioG1 : Option String × APIKeyPool := get_key 0 scenarioP1

def scenarioG2 : Option String × APIKeyPool := get_key 1 scenarioG1.2

def scenarioP2 : APIKeyPool := reenable_key scenarioG2.2 keyA

def scenarioG3 : Option String × APIKeyPool := get_key 61 scenarioP2

def scenarioG4 : Option String × APIKeyPool := get_key 62 scenarioG3.2

/-- A two-key pool whose keys are all inactive, for the self-heal witness. -/
def deadPool : APIKeyPool :=
  { keys := [keyA, keyB],
    key_stats := fun _ => { freshStats with is_active := false },
    current_index := 0 }

/-! ### backend/app/services/smart_router.py — classifier -/

/-- Model of `_parse_classification(response_text)`: strip and uppercase, accept an
exact match, then substring containment with `COMPLEX` checked first. -/
def parseClassification (response_text : String) : Option String :=
  if response_text = "" then none
  else
    let text := pyUpper (pyStrip response_text)
    if text = "SIMPLE" ∨ text = "COMPLEX" then some text
    else if strIn "COMPLEX" text then some "COMPLEX"
    else if strIn "SIMPLE" text then some "SIMPLE"
    else none

def technical_terms : List String :=
  ["hücre", "cell", "biyolojik", "biological", "ökaryotik", "eukaryotic",
   "viskoelastik", "viscoelastic", "deformasyon", "deformation", "mekanik", "mechanical",
   "fizik", "physics", "kimya", "chemistry", "matematik", "mathematics",
   "kod", "code", "program", "algoritma", "algorithm", "debug", "function", "fonksiyon",
   "class", "api", "database", "server", "framework", "library", "kütüphane",
   "hesapla", "calculate", "çöz", "solve", "problem", "equation", "formül", "formula",
   "teknik", "technical", "mühendislik", "engineering", "sistem", "system",
   "nasıl çalışır", "how does", "how it works", "neden", "why", "açıkla", "explain",
   "detaylı", "detailed", "derinlemesine", "in depth", "adım adım", "step by step",
   "araştır", "research", "analiz", "analysis", "veri", "data", "model", "modelleme",
   "teori", "theory", "kavram", "concept", "prensipler", "principles"]

def complex_patterns : List String :=
  ["kod", "code", "program", "algoritma", "algorithm", "debug", "function", "fonksiyon",
   "class", "api", "database", "server", "framework", "library", "kütüphane",
   "hesapla", "calculate", "çöz", "solve", "problem", "equation", "formül",
   "yaz", "write", "şiir", "poem", "hikaye", "story", "öykü", "yarat", "create",
   "araştır", "research", "analiz", "analysis", "veri", "data",
   "adım adım", "step by step", "nasıl çalışır", "how does", "explain in detail",
   "teknik", "technical", "detaylı", "detailed", "açıkla", "explain",
   "nasıl ve neden", "how and why", "neden ve nasıl", "why and how",
   "derinlemesine", "in depth", "detaylı açıkla", "explain in detail"]

def simple_patterns : List String :=
  ["merhaba", "hello", "hi", "selam", "nasılsın", "how are", "teşekkür", "thanks",
   "nedir", "what is", "ne demek", "what does", "basit", "simple", "kısa", "short"]

def greeting_words : List String := ["merhaba", "hello", "hi", "selam"]

def deep_question_words : List String :=
  ["nasıl", "how", "neden", "why", "niçin", "açıkla", "explain", "detaylı", "detailed"]

/-- Model of `_fast_classify_heuristic(message)`.  Both question-mark literals in the
source line `message.count("?") + message.count("?")` are the ASCII `?`, so
`question_count` is twice the number of question marks.  The two inner loop
guards (short-greeting exception, no-complex-pattern check) do not depend on
the loop variable, so the loops are written as `any` over the pattern list
conjoined with the guard. -/
def fastClassifyHeuristic (message : String) : Option String :=
  let message_lower := pyStrip (pyLower message)
  let message_length := message.length
  let question_count := countChar message '?' + countChar message '?'
  if message_length > 200 then some "COMPLEX"
  else if question_count ≥ 2 ∧ message_length > 100 then some "COMPLEX"
  else if (technical_terms.filter (fun t => strIn t message_lower)).length ≥ 3 then
    some "COMPLEX"
  else if complex_patterns.any (fun pat => strIn pat message_lower) = true
          ∧ ¬(message_length < 20
              ∧ greeting_words.any (fun g => strIn g message_lower) = true) then
    some "COMPLEX"
  else if (message_length > 80 ∧ message_length ≤ 200)
          ∧ deep_question_words.any (fun w => strIn w message_lower) = true
          ∧ question_count ≥ 1 then
    some "COMPLEX"
  else if message_length < 50
          ∧ simple_patterns.any (fun pat => strIn pat message_lower) = true
          ∧ complex_patterns.any (fun cp => strIn cp message_lower) = false then
    some "SIMPLE"
  else if message_length > 150 then some "COMPLEX"
  else none

/-- Outcome of the model-assisted classification call in `classify_message`:
a returned completion text, a retry (after a rate-limit/API error) that
returned text, or failure of both calls / a non-API exception. -/
inductive AiOutcome where
  | reply (text : String)
  | retryReply (text : String)
  | failTwice
  | failOther

/-- Model of `classify_message(message)`: heuristic first; the model call happens only
when the heuristic returns `None`.  Result is
`(classification, error_reason, model_called)`. -/
def classifyMessage (message : String) (ai : AiOutcome) :
    String × Option String × Bool :=
  match fastClassifyHeuristic message with
  | some r => (r, none, false)
  | none =>
    match ai with
    | .reply t =>
      match parseClassification t with
      | some c => (c, none, true)
      | none => ("SIMPLE", some "invalid_classification", true)
    | .retryReply t =>
      match parseClassification t with
      | some c => (c, none, true)
      | none => ("SIMPLE", some "invalid_classification", true)
    | .failTwice => ("SIMPLE", some "classification_error", true)
    | .failOther => ("SIMPLE", some "classification_error", true)

/-! ### backend/app/services/smart_router.py — character streaming -/

/-- The adaptive chunk size chosen from `total_chars_streamed` (the paired
delays 8ms/5ms/3ms are timing behaviour and are not modelled). -/
def chunkSizeFor (total : Nat) : Nat :=
  if total < 50 then 2 else if total < 200 then 3 else 4

/-- The inner `while len(buffer) >= chunk_size` loop: slice `chunk_size`
characters off the buffer and emit them, accumulating the emitted total.
The `0 < cs` guard makes the recursion terminate; every chunk size the code
produces is 2, 3 or 4, where the guard agrees with the loop condition. -/
def drainBuffer (cs : Nat) (buffer : List Char) (total : Nat) :
    List (List Char) × List Char × Nat :=
  if _h : 0 < cs ∧ cs ≤ buffer.length then
    let rest := drainBuffer cs (buffer.drop cs) (total + cs)
    (buffer.take cs :: rest.1, rest.2.1, rest.2.2)
  else ([], buffer, total)
termination_by buffer.length
decreasing_by
  simp only [List.length_drop]
  omega

/-- One provider chunk in the `character_streaming` loop: skip falsy (empty)
deltas, append to the buffer, pick the chunk size from the current total,
then drain. -/
def processDelta (buffer : List Char) (total : Nat) (delta : List Char) :
    List (List Char) × List Char × Nat :=
  if delta.isEmpty then ([], buffer, total)
  else drainBuffer (chunkSizeFor total) (buffer ++ delta) total

/-- The `async for chunk in stream` loop over the provider deltas,
threading `(buffer, total_chars_streamed)`. -/
def streamDeltas : List (List Char) → List Char → Nat →
    List (List Char) × List Char × Nat
  | [], buffer, total => ([], buffer, total)
  | d :: ds, buffer, total =>
    let r1 := processDelta buffer total d
    let r2 := streamDeltas ds r1.2.1 r1.2.2
    (r1.1 ++ r2.1, r2.2)

/-- The chunks yielded by `generate_response_stream` for a provider stream
with the given deltas under `character_streaming=True`: run the rebuffering
loop from an empty buffer, then flush any remainder. -/
def characterStreamChunks (deltas : List (List Char)) : List (List Char) :=
  let r := streamDeltas deltas [] 0
  if r.2.1.isEmpty then r.1 else r.1 ++ [r.2.1]

/-! ### generate_response_stream error paths and the chat turn
(backend/app/routers/chat.py) -/

def OPENAI_RATE_LIMIT : String :=
  "The AI service is currently experiencing high demand. Please try again in a few moments."

def OPENAI_API_ERROR : String :=
  "We're experiencing issues with the AI service. Please try again in a moment. If the problem persists, contact support."

def OPENAI_TIMEOUT : String :=
  "The request took too long to process. Please try again with a shorter message or try later."

/-- Outcome of `_create_chat_completion_with_retry` (after its internal
retries): a provider stream whose deltas iterate to completion, or a raised
exception. -/
inductive FetchOutcome where
  | ok (deltas : List (List Char))
  | raise (e : PyError)

/-- The `"model" in str(e) and ("not found" in str(e) or "invalid" in str(e))`
test guarding the gpt-4o fallback (the source lowercases `str(e)`). -/
def modelNotFoundErr (e : PyError) : Bool :=
  strIn "model" (pyLower (errStr e))
    && (strIn "not found" (pyLower (errStr e))
        || strIn "invalid" (pyLower (errStr e)))

/-- The error message `generate_response_stream` yields as a final chunk
when the completion fails (`format_error` on the matching template). -/
def errorMessageFor (e : PyError) : String :=
  match e with
  | .rateLimitError _ => OPENAI_RATE_LIMIT
  | .timeoutError _ => OPENAI_TIMEOUT
  | _ => OPENAI_API_ERROR

/-- Model of `generate_response_stream(messages, model, ..., character_streaming=True)`
as called by the chat endpoint: on a successful fetch, the rebuffered
character chunks; on a model-not-found error, one fallback attempt that
streams deltas directly (or yields the API-error message); on any other
exception, the matching error message as a single chunk.  In every case the
generator terminates normally — exceptions never propagate to the caller. -/
def generate_response_stream (outcome fallbackOutcome : FetchOutcome) :
    List (List Char) :=
  match outcome with
  | .ok deltas => characterStreamChunks deltas
  | .raise e =>
    if modelNotFoundErr e then
      match fallbackOutcome with
      | .ok ds => ds.filter (fun d => d.isEmpty = false)
      | .raise _ => [OPENAI_API_ERROR.toList]
    else [(errorMessageFor e).toList]

/-- The environment of one call to the `chat` endpoint (normal chat flow):
the results of the admission checks, the balance and routed cost, the
completion-fetch outcomes, whether and when the client disconnects, and the
result of `deduct_credits`. -/
structure TurnEnv where
  rateAllowed : Bool
  slotAcquired : Bool
  credits : ℚ
  cost : ℚ
  fetchOutcome : FetchOutcome
  fallbackOutcome : FetchOutcome
  clientCancelsAfter : Option Nat
  deductReturns : Bool

inductive TurnStatus where
  | deniedRateLimit
  | deniedConcurrency
  | insufficientCredits
  | streamed
  | cancelled
  | deductFailed

structure TurnResult where
  acquireCalls : Nat
  acquireSuccesses : Nat
  releaseCalls : Nat
  deductCalled : Bool
  persisted : Option (List Char)
  status : TurnStatus

/-- The `chat` endpoint's control flow for a normal chat turn.  The
`try: ... finally: await release_request_slot(user_id)` spans the whole
handler body — from before the rate-limit check — so every branch records
`releaseCalls := 1`, including the two admission-denied branches where no
slot was acquired.  Inside the streaming generator, `deduct_credits` runs
after the chunk loop finishes; a client disconnect closes the generator at a
yield (GeneratorExit), skipping the deduction; the assistant message is
saved only when the deduction succeeded. -/
def chat_turn (env : TurnEnv) : TurnResult :=
  if env.rateAllowed = false then
    { acquireCalls := 0, acquireSuccesses := 0, releaseCalls := 1,
      deductCalled := false, persisted := none, status := .deniedRateLimit }
  else if env.slotAcquired = false then
    { acquireCalls := 1, acquireSuccesses := 0, releaseCalls := 1,
      deductCalled := false, persisted := none, status := .deniedConcurrency }
  else if env.credits < env.cost then
    { acquireCalls := 1, acquireSuccesses := 1, releaseCalls := 1,
      deductCalled := false, persisted := none, status := .insufficientCredits }
  else
    let chunks := generate_response_stream env.fetchOutcome env.fallbackOutcome
    let cancelled :=
      match env.clientCancelsAfter with
      | some k => decide (k < chunks.length)
      | none => false
    if cancelled then
      { acquireCalls := 1, acquireSuccesses := 1, releaseCalls := 1,
        deductCalled := false, persisted := none, status := .cancelled }
    else if env.deductReturns then
      { acquireCalls := 1, acquireSuccesses := 1, releaseCalls := 1,
        deductCalled := true, persisted := some chunks.flatten, status := .streamed }
    else
      { acquireCalls := 1, acquireSuccesses := 1, releaseCalls := 1,
        deductCalled := true, persisted := none, status := .deductFailed }

/-- C1 failing input: a turn denied by the rate limiter. -/
def c1RateDeniedEnv : TurnEnv :=
  { rateAllowed := false, slotAcquired := false, credits := 100, cost := 1,
    fetchOutcome := .ok [], fallbackOutcome := .ok [],
    clientCancelsAfter := none, deductReturns := true }

/-- C1 failing input (second denial path): slot acquisition denied. -/
def c1SlotDeniedEnv : TurnEnv :=
  { rateAllowed := true, slotAcquired := false, credits := 100, cost := 1,
    fetchOutcome := .ok [], fallbackOutcome := .ok [],
    clientCancelsAfter := none, deductReturns := true }

/-- C2 failing input: the upstream completion fails (rate limited after all
retries), the client stays connected. -/
def c2FailedFetchEnv : TurnEnv :=
  { rateAllowed := true, slotAcquired := true, credits := 100, cost := 1,
    fetchOutcome := .raise (.rateLimitError "Rate limit exceeded"),
    fallbackOutcome := .ok [],
    clientCancelsAfter := none, deductReturns := true }

lemma pruneWindow_of_in_window {t₀ now : ℚ} {ts : List ℚ}
    (hnow : now < t₀ + 60) (h : ∀ t ∈ ts, t₀ ≤ t) :
    pruneWindow now ts = ts := by
  unfold pruneWindow
  apply List.filter_eq_self.mpr
  intro t ht
  have h1 := h t ht
  have : now - t < RATE_LIMIT_WINDOW := by
    unfold RATE_LIMIT_WINDOW
    linarith
  simp [this]

lemma runRequests_in_window (t₀ : ℚ) :
    ∀ (ts cur : List ℚ),
      (∀ t ∈ ts, t₀ ≤ t ∧ t < t₀ + 60) →
      (∀ t ∈ cur, t₀ ≤ t ∧ t < t₀ + 60) →
      cur.length ≤ 30 →
      (runRequests ts cur).1
        = (List.range ts.length).map (fun i => decide (cur.length + i < 30)) := by
  intro ts
  induction ts with
  | nil => intro cur _ _ _; rfl
  | cons t ts ih =>
    intro cur hts hcur hlen
    have ht : t₀ ≤ t ∧ t < t₀ + 60 := hts t (by simp)
    have hprune : pruneWindow t cur = cur :=
      pruneWindow_of_in_window ht.2 (fun c hc => (hcur c hc).1)
    have hts' : ∀ x ∈ ts, t₀ ≤ x ∧ x < t₀ + 60 := by
      intro x hx; exact hts x (by simp [hx])
    by_cases hfull : 30 ≤ cur.length
    · -- the denial branch: the state is the pruned list, unchanged
      have hcur30 : cur.length = 30 := le_antisymm hlen hfull
      have hstep : check_rate_limit t cur = (false, cur) := by
        unfold check_rate_limit
        simp [hprune, MAX_REQUESTS_PER_MINUTE, hcur30]
      have ihx := ih cur hts' hcur hlen
      simp only [runRequests, hstep, ihx, List.length_cons,
        List.range_succ_eq_map, List.map_cons, List.map_map]
      refine List.cons_eq_cons.mpr ⟨?_, ?_⟩
      · simp [hcur30]
      · apply List.map_congr_left
        intro i _
        simp only [Function.comp]
        have h1 : ¬ (cur.length + Nat.succ i < 30) := by omega
        have h2 : ¬ (cur.length + i < 30) := by omega
        simp [h1, h2]
    · -- the allow branch: `now` is appended
      have hstep : check_rate_limit t cur = (true, cur ++ [t]) := by
        unfold check_rate_limit
        simp only [hprune]
        rw [if_neg (by unfold MAX_REQUESTS_PER_MINUTE; omega)]
      have hcur' : ∀ x ∈ cur ++ [t], t₀ ≤ x ∧ x < t₀ + 60 := by
        intro x hx
        rcases List.mem_append.mp hx with h | h
        · exact hcur x h
        · simp at h; subst h; exact ht
      have hlen' : (cur ++ [t]).length ≤ 30 := by
        simp; omega
      have ihx := ih (cur ++ [t]) hts' hcur' hlen'
      simp only [runRequests, hstep, ihx, List.length_cons,
        List.range_succ_eq_map, List.map_cons, List.map_map]
      refine List.cons_eq_cons.mpr ⟨?_, ?_⟩
      · simp; omega
      · apply List.map_congr_left
        intro i _
        simp only [Function.comp, List.length_append, List.length_cons,
          List.length_nil]
        have : cur.length + 1 + i = cur.length + Nat.succ i := by omega
        rw [this]

/-- C3: `check_rate_limit` allows a request exactly when fewer than 30
timestamps fall within the preceding 60-second window, and for any 31
requests whose times all lie inside one 60-second window (starting from an
empty window state) the first 30 are allowed and exactly the 31st is
denied. -/
theorem c3_rate_limit_window :
    (∀ (now : ℚ) (ts : List ℚ),
        (check_rate_limit now ts).1 = true ↔ (pruneWindow now ts).length < 30)
    ∧ (∀ (t₀ : ℚ) (ts : List ℚ), ts.length = 31 →
        (∀ t ∈ ts, t₀ ≤ t ∧ t < t₀ + 60) →
        (runRequests ts []).1 = (List.range 31).map (fun i => decide (i < 30))) := by
  constructor
  · intro now ts
    unfold check_rate_limit
    by_cases h : MAX_REQUESTS_PER_MINUTE ≤ (pruneWindow now ts).length
    · simp only [h, if_true]
      unfold MAX_REQUESTS_PER_MINUTE at h
      constructor
      · intro hc; cases hc
      · intro hc; omega
    · simp only [h, if_false]
      unfold MAX_REQUESTS_PER_MINUTE at h
      constructor
      · intro _; omega
      · intro _; trivial
  · intro t₀ ts hlen hts
    have h := runRequests_in_window t₀ ts [] hts (by intro t ht; cases ht) (by simp)
    rw [h, hlen]
    simp

/-- Witness for C3 at a concrete input: 31 requests all at time 0. -/
theorem c3_rate_limit_window_witness :
    ((check_rate_limit 0 []).1 = true ↔ (pruneWindow 0 []).length < 30)
    ∧ (runRequests (List.replicate 31 (0 : ℚ)) []).1
        = (List.range 31).map (fun i => decide (i < 30)) := by
  constructor
  · exact c3_rate_limit_window.1 0 []
  · exact c3_rate_limit_window.2 0 (List.replicate 31 0) (by simp)
      (by intro t ht
          rw [List.eq_of_mem_replicate ht]
          norm_num)

/-- C1: the guaranteed-release region.  The `finally` block of `chat` spans
the admission checks, so `release_request_slot` runs once on *every* exit
path — including the two denial paths where `acquire_request_slot` never
succeeded (rate-limit denial never even calls it).  This contradicts the
claim's "never when no slot was acquired". -/
theorem c1_release_without_acquire :
    ((chat_turn c1RateDeniedEnv).acquireCalls = 0
      ∧ (chat_turn c1RateDeniedEnv).acquireSuccesses = 0
      ∧ (chat_turn c1RateDeniedEnv).releaseCalls = 1)
    ∧ ((chat_turn c1SlotDeniedEnv).acquireCalls = 1
      ∧ (chat_turn c1SlotDeniedEnv).acquireSuccesses = 0
      ∧ (chat_turn c1SlotDeniedEnv).releaseCalls = 1)
    ∧ (∀ env : TurnEnv, (chat_turn env).releaseCalls = 1) := by
  refine ⟨⟨rfl, rfl, rfl⟩, ⟨rfl, rfl, rfl⟩, ?_⟩
  intro env
  unfold chat_turn
  by_cases h1 : env.rateAllowed = false
  · rw [if_pos h1]
  · rw [if_neg h1]
    by_cases h2 : env.slotAcquired = false
    · rw [if_pos h2]
    · rw [if_neg h2]
      by_cases h3 : env.credits < env.cost
      · rw [if_pos h3]
      · rw [if_neg h3]
        simp only
        split
        · rfl
        · split <;> rfl

/-- C2: when the upstream completion fails, `generate_response_stream`
swallows the exception and yields the formatted error message as an
ordinary final chunk, so the chat generator's loop completes normally and
`deduct_credits` *is* called for the failed turn — contradicting the claim
that no deduction happens when the completion fails. -/
theorem c2_deduct_called_after_failed_generation :
    generate_response_stream c2FailedFetchEnv.fetchOutcome
        c2FailedFetchEnv.fallbackOutcome = [OPENAI_RATE_LIMIT.toList]
    ∧ (chat_turn c2FailedFetchEnv).deductCalled = true
    ∧ (chat_turn c2FailedFetchEnv).status = TurnStatus.streamed := by
  refine ⟨?_, rfl, rfl⟩
  decide

lemma deduct_credits_snd (bal amt : ℚ) (u t : OpOutcome) :
    (deduct_credits bal amt u t).2
      = if bal < amt then none else some (bal - amt) := by
  unfold deduct_credits
  by_cases h : bal < amt
  · simp [h]
  · rcases u with r | m
    · rcases t with tr | tm <;>
        by_cases he : r.error.isSome <;>
        by_cases hd : r.hasData = false <;>
        simp [h, he, hd]
    · simp [h]

/-- C4: `deduct_credits` returns `False` without issuing any balance write
when the balance is below the amount; whenever it does submit a balance
write, the written value is exactly `balance - amount` and is non-negative;
and a turn whose sufficiency check fails never calls `deduct_credits`. -/
theorem c4_deduct_never_negative :
    (∀ (bal amt : ℚ) (u t : OpOutcome),
        bal < amt → deduct_credits bal amt u t = (false, none))
    ∧ (∀ (bal amt : ℚ) (u t : OpOutcome) (w : ℚ),
        (deduct_credits bal amt u t).2 = some w → w = bal - amt ∧ 0 ≤ w)
    ∧ (∀ env : TurnEnv, env.credits < env.cost →
        (chat_turn env).deductCalled = false) := by
  refine ⟨?_, ?_, ?_⟩
  · intro bal amt u t h
    unfold deduct_credits
    rw [if_pos h]
  · intro bal amt u t w hw
    rw [deduct_credits_snd] at hw
    by_cases h : bal < amt
    · rw [if_pos h] at hw; cases hw
    · rw [if_neg h] at hw
      have hw' : bal - amt = w := by injection hw
      constructor
      · exact hw'.symm
      · have := not_lt.mp h
        linarith
  · intro env h
    unfold chat_turn
    by_cases h1 : env.rateAllowed = false
    · rw [if_pos h1]
    · rw [if_neg h1]
      by_cases h2 : env.slotAcquired = false
      · rw [if_pos h2]
      · rw [if_neg h2]
        rw [if_pos h]

/-- Witness for C4: balance 1 < amount 2 denies without a write; balance 5,
amount 3 writes exactly 2 ≥ 0; a turn with 5 credits and cost 10 never
reaches `deduct_credits`. -/
theorem c4_deduct_never_negative_witness :
    deduct_credits 1 2 (.resp ⟨none, true⟩) (.resp ⟨none, true⟩) = (false, none)
    ∧ ((2 : ℚ) = 5 - 3 ∧ (0 : ℚ) ≤ 2)
    ∧ (chat_turn { rateAllowed := true, slotAcquired := true, credits := 5,
                   cost := 10, fetchOutcome := .ok [],
                   fallbackOutcome := .ok [], clientCancelsAfter := none,
                   deductReturns := true }).deductCalled = false := by
  refine ⟨?_, ?_, ?_⟩
  · exact c4_deduct_never_negative.1 1 2 (.resp ⟨none, true⟩)
      (.resp ⟨none, true⟩) (by norm_num)
  · exact c4_deduct_never_negative.2.1 5 3 (.resp ⟨none, true⟩)
      (.resp ⟨none, true⟩) 2 (by rw [deduct_credits_snd]; norm_num)
  · exact c4_deduct_never_negative.2.2 _ (by norm_num)

/-- C5: once the balance update has succeeded, the audit-log insert is
best-effort — for *every* outcome of the transaction insert (clean
response, error response, or raised exception) `deduct_credits` still
returns `True` and the submitted debit `balance - amount` stands. -/
theorem c5_audit_log_best_effort :
    ∀ (bal amt : ℚ) (r : SupaResp) (t : OpOutcome),
      ¬ bal < amt → r.error = none → r.hasData = true →
      deduct_credits bal amt (.resp r) t = (true, some (bal - amt)) := by
  intro bal amt r t h he hd
  unfold deduct_credits
  rcases t with tr | tm <;> simp [h, he, hd]

/-- Witness for C5: a raised exception from the transaction insert does not
undo the debit or the `True` result. -/
theorem c5_audit_log_best_effort_witness :
    deduct_credits 5 3 (.resp ⟨none, true⟩) (.raised "insert failed")
      = (true, some (5 - 3)) := by
  exact c5_audit_log_best_effort 5 3 ⟨none, true⟩ (.raised "insert failed")
    (by norm_num) rfl rfl

/-- C10: `add_credits` inspects neither the balance-update response nor the
transaction-insert response: for every pair of responses — error or not —
it submits `balance + amount` and reports success. -/
theorem c10_add_credits_unconditional :
    ∀ (bal amt : ℚ) (u t : SupaResp),
      add_credits bal amt u t = (true, bal + amt) := by
  intro bal amt u t
  rfl

lemma drainBuffer_flatten (cs : Nat) (buffer : List Char) (total : Nat) :
    (drainBuffer cs buffer total).1.flatten
      ++ (drainBuffer cs buffer total).2.1 = buffer := by
  induction buffer, total using drainBuffer.induct cs with
  | case1 buffer total h ih =>
    rw [drainBuffer]
    simp only [dif_pos h, List.flatten_cons, List.append_assoc, ih,
      List.take_append_drop]
  | case2 buffer total h =>
    rw [drainBuffer]
    simp [dif_neg h]

lemma processDelta_flatten (buffer : List Char) (total : Nat)
    (delta : List Char) :
    (processDelta buffer total delta).1.flatten
      ++ (processDelta buffer total delta).2.1 = buffer ++ delta := by
  unfold processDelta
  by_cases hd : delta.isEmpty
  · have : delta = [] := by simpa using hd
    simp [hd, this]
  · simp [hd, drainBuffer_flatten]

lemma streamDeltas_flatten :
    ∀ (ds : List (List Char)) (buffer : List Char) (total : Nat),
      (streamDeltas ds buffer total).1.flatten
        ++ (streamDeltas ds buffer total).2.1 = buffer ++ ds.flatten := by
  intro ds
  induction ds with
  | nil => intro buffer total; simp [streamDeltas]
  | cons d ds ih =>
    intro buffer total
    simp only [streamDeltas, List.flatten_cons, List.flatten_append,
      List.append_assoc]
    rw [ih, ← List.append_assoc, processDelta_flatten, List.append_assoc]

lemma characterStreamChunks_flatten (deltas : List (List Char)) :
    (characterStreamChunks deltas).flatten = deltas.flatten := by
  unfold characterStreamChunks
  have h := streamDeltas_flatten deltas [] 0
  by_cases he : (streamDeltas deltas [] 0).2.1.isEmpty
  · have : (streamDeltas deltas [] 0).2.1 = [] := by simpa using he
    rw [this, List.append_nil] at h
    simpa [he] using h
  · simpa [he, List.flatten_append] using h

/-- C7: for a successful stream, concatenating the chunks emitted by
`generate_response_stream` (in emission order) reproduces exactly the
concatenation of the provider deltas, the buffered remainder being flushed
at stream end; and the text the chat turn persists afterwards is exactly
that concatenation. -/
theorem c7_stream_concat :
    (∀ (deltas : List (List Char)) (fb : FetchOutcome),
        (generate_response_stream (.ok deltas) fb).flatten = deltas.flatten)
    ∧ (∀ (env : TurnEnv) (deltas : List (List Char)),
        env.fetchOutcome = .ok deltas →
        env.rateAllowed = true → env.slotAcquired = true →
        ¬ env.credits < env.cost → env.clientCancelsAfter = none →
        env.deductReturns = true →
        (chat_turn env).persisted = some deltas.flatten) := by
  constructor
  · intro deltas fb
    exact characterStreamChunks_flatten deltas
  · intro env deltas hf h1 h2 h3 h4 h5
    unfold chat_turn
    rw [if_neg (by simp [h1]), if_neg (by simp [h2]), if_neg h3]
    simp only [hf, h4, h5, if_true, generate_response_stream]
    rw [if_neg (by simp)]
    simp only
    rw [characterStreamChunks_flatten]

/-- Witness for C7: the deltas `["he", "y"]` are persisted as `"hey"`. -/
theorem c7_stream_concat_witness :
    (chat_turn { rateAllowed := true, slotAcquired := true, credits := 10,
                 cost := 1, fetchOutcome := .ok [['h', 'e'], ['y']],
                 fallbackOutcome := .ok [], clientCancelsAfter := none,
                 deductReturns := true }).persisted
      = some ([['h', 'e'], ['y']] : List (List Char)).flatten := by
  exact c7_stream_concat.2 _ [['h', 'e'], ['y']] rfl rfl rfl
    (by norm_num) rfl rfl

lemma getD_mod_mem {l : List String} (hl : l ≠ []) (i : Nat) :
    l.getD (i % l.length) "" ∈ l := by
  have hpos : 0 < l.length := List.length_pos.mpr hl
  have hlt : i % l.length < l.length := Nat.mod_lt _ hpos
  rw [List.getD_eq_getElem l "" hlt]
  exact List.getElem_mem hlt

lemma get_key_reset (now : ℚ) (p : APIKeyPool) (hk : p.keys ≠ [])
    (ha : activeKeysOf p = []) :
    get_key now p
      = (some (p.keys.getD (p.current_index % p.keys.length) ""),
         { keys := p.keys, current_index := p.current_index + 1,
           key_stats := bumpUsage (resetAllActive p)
             (p.keys.getD (p.current_index % p.keys.length) "") now }) := by
  simp only [get_key, if_neg hk, ha, ite_true]

lemma get_key_active (now : ℚ) (p : APIKeyPool) (ha : activeKeysOf p ≠ []) :
    get_key now p
      = (some ((activeKeysOf p).getD
            (p.current_index % (activeKeysOf p).length) ""),
         { keys := p.keys, current_index := p.current_index + 1,
           key_stats := bumpUsage p.key_stats
             ((activeKeysOf p).getD
               (p.current_index % (activeKeysOf p).length) "") now }) := by
  have hk : p.keys ≠ [] := by
    intro h0
    apply ha
    unfold activeKeysOf
    rw [h0]
    rfl
  simp only [get_key, if_neg hk, if_neg ha]

lemma get_key_mem_active (now : ℚ) (p : APIKeyPool) (k : String)
    (h : (get_key now p).1 = some k) :
    k ∈ p.keys
    ∧ ((∃ j ∈ p.keys, (p.key_stats j).is_active = true) →
        (p.key_stats k).is_active = true) := by
  by_cases hk : p.keys = []
  · rw [get_key, if_pos hk] at h
    cases h
  · by_cases ha : activeKeysOf p = []
    · rw [get_key_reset now p hk ha] at h
      have hkk : k = p.keys.getD (p.current_index % p.keys.length) "" :=
        (Option.some.inj h).symm
      refine ⟨hkk ▸ getD_mod_mem hk _, ?_⟩
      rintro ⟨j, hj, hact⟩
      have := (List.filter_eq_nil_iff.mp ha) j hj
      simp [hact] at this
    · rw [get_key_active now p ha] at h
      have hkk : k = (activeKeysOf p).getD
          (p.current_index % (activeKeysOf p).length) "" :=
        (Option.some.inj h).symm
      have hmem : k ∈ activeKeysOf p := hkk ▸ getD_mod_mem ha _
      have := List.mem_filter.mp hmem
      exact ⟨this.1, fun _ => this.2⟩

lemma get_key_self_heal (now : ℚ) (p : APIKeyPool) (hk : p.keys ≠ [])
    (hall : ∀ j ∈ p.keys, (p.key_stats j).is_active = false) :
    (get_key now p).1.isSome = true
    ∧ ∀ j ∈ p.keys, ((get_key now p).2.key_stats j).is_active = true := by
  have ha : activeKeysOf p = [] := by
    unfold activeKeysOf
    rw [List.filter_eq_nil_iff]
    intro j hj
    simp [hall j hj]
  rw [get_key_reset now p hk ha]
  refine ⟨rfl, ?_⟩
  intro j hj
  simp only [bumpUsage, resetAllActive]
  by_cases hjk : j = p.keys.getD (p.current_index % p.keys.length) ""
  · rw [if_pos hjk, hjk]
    simp only [if_pos (getD_mod_mem hk p.current_index)]
  · rw [if_neg hjk]
    simp only [if_pos hj]

/-- C6: `get_key` round-robins over the currently-active keys only (a key
returned while any key is active is itself active); when every key is
inactive it reactivates all of them and still returns a pool key; and in
the two-key scenario, after key A is deactivated by a rate-limit error the
next two calls both return key B, and once the 60-second cooldown reenables
key A it comes back first in the rotation. -/
theorem c6_get_key_round_robin :
    (∀ (now : ℚ) (p : APIKeyPool) (k : String),
        (get_key now p).1 = some k →
        k ∈ p.keys
          ∧ ((∃ j ∈ p.keys, (p.key_stats j).is_active = true) →
              (p.key_stats k).is_active = true))
    ∧ (∀ (now : ℚ) (p : APIKeyPool), p.keys ≠ [] →
        (∀ j ∈ p.keys, (p.key_stats j).is_active = false) →
        (get_key now p).1.isSome = true
          ∧ ∀ j ∈ p.keys, ((get_key now p).2.key_stats j).is_active = true)
    ∧ ((scenarioP1.key_stats keyA).is_active = false
        ∧ scenarioG1.1 = some keyB
        ∧ scenarioG2.1 = some keyB
        ∧ (scenarioP2.key_stats keyA).is_active = true
        ∧ scenarioG3.1 = some keyA
        ∧ scenarioG4.1 = some keyB) := by
  refine ⟨get_key_mem_active, get_key_self_heal, ?_⟩
  refine ⟨by decide, by decide, by decide, by decide, by decide, by decide⟩

/-- Witness for C6 at concrete inputs: the all-inactive two-key pool
self-heals, and the key B returned right after key A's quarantine is an
active member of the pool. -/
theorem c6_get_key_round_robin_witness :
    ((get_key 0 deadPool).1.isSome = true
      ∧ ∀ j ∈ deadPool.keys,
          ((get_key 0 deadPool).2.key_stats j).is_active = true)
    ∧ (keyB ∈ scenarioP1.keys
        ∧ ((∃ j ∈ scenarioP1.keys,
              (scenarioP1.key_stats j).is_active = true) →
            (scenarioP1.key_stats keyB).is_active = true)) := by
  constructor
  · exact c6_get_key_round_robin.2.1 0 deadPool (by decide) (by decide)
  · exact c6_get_key_round_robin.1 0 scenarioP1 keyB (by decide)

lemma fastClassifyHeuristic_long (message : String)
    (h : message.length > 200) :
    fastClassifyHeuristic message = some "COMPLEX" := by
  unfold fastClassifyHeuristic
  simp only
  rw [if_pos h]

set_option maxRecDepth 8000 in
/-- C8: the heuristic stage alone settles the spec's two scenarios — every
message longer than 200 characters is classified COMPLEX by the first
length rule, and the 7-character message "merhaba" is classified SIMPLE by
the short-message simple-pattern rule; in both cases `classify_message`
returns without consulting the model (third component `false`), whatever
the model call would have produced. -/
theorem c8_heuristic_scenarios :
    (∀ (message : String) (ai : AiOutcome), message.length > 200 →
        fastClassifyHeuristic message = some "COMPLEX"
          ∧ classifyMessage message ai = ("COMPLEX", none, false))
    ∧ (fastClassifyHeuristic "merhaba" = some "SIMPLE"
        ∧ ∀ ai : AiOutcome,
            classifyMessage "merhaba" ai = ("SIMPLE", none, false)) := by
  have hmer : fastClassifyHeuristic "merhaba" = some "SIMPLE" := by decide
  refine ⟨?_, hmer, ?_⟩
  · intro message ai h
    refine ⟨fastClassifyHeuristic_long message h, ?_⟩
    unfold classifyMessage
    rw [fastClassifyHeuristic_long message h]
  · intro ai
    unfold classifyMessage
    rw [hmer]

set_option maxRecDepth 8000 in
/-- Witness for C8: a 201-character message is heuristically COMPLEX with
no model call. -/
theorem c8_heuristic_scenarios_witness :
    fastClassifyHeuristic (String.mk (List.replicate 201 'a')) = some "COMPLEX"
    ∧ classifyMessage (String.mk (List.replicate 201 'a')) .failTwice
        = ("COMPLEX", none, false) := by
  exact c8_heuristic_scenarios.1 (String.mk (List.replicate 201 'a'))
    .failTwice (by decide)

/-- C9: `_parse_classification` is case-insensitive — it matches on the
uppercased stripped text, accepting exact equality or substring
containment, with COMPLEX checked before SIMPLE (a response containing
both parses as COMPLEX); and when the response is unparsable,
`classify_message` falls back to SIMPLE with the non-empty error reason
`invalid_classification`. -/
theorem c9_parse_classification :
    (∀ t : String, t ≠ "" →
        strIn "COMPLEX" (pyUpper (pyStrip t)) = true →
        parseClassification t = some "COMPLEX")
    ∧ (∀ t : String, t ≠ "" →
        strIn "COMPLEX" (pyUpper (pyStrip t)) = false →
        strIn "SIMPLE" (pyUpper (pyStrip t)) = true →
        parseClassification t = some "SIMPLE")
    ∧ parseClassification "it could be Simple, or rather complex" = some "COMPLEX"
    ∧ (∀ (message t : String),
        fastClassifyHeuristic message = none →
        parseClassification t = none →
        classifyMessage message (.reply t)
          = ("SIMPLE", some "invalid_classification", true))
    ∧ "invalid_classification" ≠ "" := by
  refine ⟨?_, ?_, by decide, ?_, by decide⟩
  · intro t ht hc
    unfold parseClassification
    rw [if_neg ht]
    simp only
    by_cases hd : pyUpper (pyStrip t) = "SIMPLE" ∨ pyUpper (pyStrip t) = "COMPLEX"
    · rcases hd with hd | hd
      · rw [hd] at hc
        exact absurd hc (by decide)
      · rw [if_pos (Or.inr hd), hd]
    · rw [if_neg hd, if_pos hc]
  · intro t ht hc hs
    unfold parseClassification
    rw [if_neg ht]
    simp only
    by_cases hd : pyUpper (pyStrip t) = "SIMPLE" ∨ pyUpper (pyStrip t) = "COMPLEX"
    · rcases hd with hd | hd
      · rw [if_pos (Or.inl hd), hd]
      · rw [hd] at hc
        exact absurd hc (by decide)
    · rw [if_neg hd, if_neg (by simp [hc]), if_pos hs]
  · intro message t hm ht
    simp [classifyMessage, hm, ht]

/-- Witness for C9 at concrete inputs: a lowercase "complex!" reply parses
as COMPLEX, a lowercase "simple." reply parses as SIMPLE, and the
unparsable reply "maybe" to the uncertain message "ok then" defaults to
SIMPLE with the `invalid_classification` reason. -/
theorem c9_parse_classification_witness :
    parseClassification "complex!" = some "COMPLEX"
    ∧ parseClassification "simple." = some "SIMPLE"
    ∧ classifyMessage "ok then" (.reply "maybe")
        = ("SIMPLE", some "invalid_classification", true) := by
  refine ⟨?_, ?_, ?_⟩
  · exact c9_parse_classification.1 "complex!" (by decide) (by decide)
  · exact c9_parse_classification.2.1 "simple." (by decide) (by decide) (by decide)
  · exact c9_parse_classification.2.2.2.1 "ok then" "maybe" (by decide) (by decide)

end Vion
